import Mathlib

/-
Verification development for the XTE-Visualizer repository.

The repository contains two Python scripts, histogramAnalysis.py and
lineCreator.py.  Each defines a function parse_navigation_log that reads a
tab-separated navigation log, and a main routine that discovers log files,
filters runs by a minimum sample count, and renders a chart.

Modeling conventions used throughout this file:
  - A file is modeled as its list of lines (the strings yielded by Python
    readlines, without the trailing newline; Python float parsing ignores
    surrounding whitespace, so dropping the newline does not change any
    parse result).
  - Python float values are modeled exactly: finite values as rationals
    (ignoring IEEE-754 rounding, which no claim here depends on), plus the
    distinguished values inf, -inf and nan produced by parsing the tokens
    inf, infinity and nan.
  - A Python function that can raise is modeled as returning Except.
  - numpy statistics (mean, std, percentile, max of absolute values) are
    modeled as exact rational arithmetic; the standard deviation, whose
    value is a square root, is characterized by the predicate isStdDev
    relating a list to the nonnegative root of its population variance.
-/

set_option allowUnsafeReducibility true in
attribute [semireducible] Rat.add Rat.mul Rat.inv Rat.sub Rat.ofScientific

deriving instance DecidableEq for Except

/-- The value domain of Python float: a finite rational, or one of the
non-finite values positive infinity, negative infinity, not-a-number. -/
inductive PyFloat where
  | finite : ℚ → PyFloat
  | inf : PyFloat
  | ninf : PyFloat
  | nan : PyFloat
deriving DecidableEq, Repr

/-- Whether a PyFloat is a finite real number. -/
def PyFloat.isFinite : PyFloat → Bool
  | .finite _ => true
  | _ => false

/-- The one exception kind the modeled code can raise: the ValueError thrown
by Python float() on an unparsable string. -/
inductive PyError where
  | valueError : PyError
deriving DecidableEq, Repr

/-- Remove leading and trailing whitespace from a character list. -/
def stripChars (cs : List Char) : List Char :=
  ((cs.dropWhile Char.isWhitespace).reverse.dropWhile Char.isWhitespace).reverse

/-- Model of Python str.strip(): remove leading and trailing whitespace
(space, tab, carriage return, newline). -/
def pyStrip (s : String) : String := ⟨stripChars s.data⟩

/-- Model of Python str.startswith(p). -/
def pyStartsWith (s p : String) : Bool := p.data.isPrefixOf s.data

/-- Model of Python str.endswith(p). -/
def pyEndsWith (s p : String) : Bool := p.data.isSuffixOf s.data

/-- Model of Python str.lower() on the ASCII text the logs contain. -/
def pyToLower (s : String) : String := ⟨s.data.map Char.toLower⟩

/-- Split a character list at every occurrence of a separator character;
like Python str.split(sep), the result is never empty and splitting the
empty text gives one empty piece. -/
def splitOnChar (sep : Char) : List Char → List (List Char)
  | [] => [[]]
  | c :: cs =>
    match splitOnChar sep cs with
    | [] => [[]]
    | piece :: rest =>
      if c = sep then [] :: piece :: rest else (c :: piece) :: rest

/-- Model of Python line.split(sep) for a one-character separator. -/
def pySplit (s : String) (sep : Char) : List String :=
  (splitOnChar sep s.data).map (fun cs => ⟨cs⟩)

/-- Digit characters to their value; helper for the float grammar. -/
def digitVal (c : Char) : ℕ := c.toNat - 48

/-- A nonempty all-digit character sequence read as a natural number. -/
def digitsToNat (cs : List Char) : ℕ :=
  cs.foldl (fun a c => 10 * a + digitVal c) 0

/-- All characters are decimal digits. -/
def allDigits (cs : List Char) : Bool := cs.all Char.isDigit

/-- Split a character list at the first occurrence of a separator
character; the second component is none when the separator is absent. -/
def splitAtChar (sep : Char) : List Char → List Char × Option (List Char)
  | [] => ([], none)
  | c :: cs =>
    if c = sep then ([], some cs)
    else
      let r := splitAtChar sep cs
      (c :: r.1, r.2)

/-- Mantissa of a Python float literal: digits, optionally with one decimal
point, at least one digit overall (accepts 12, 12., .5, 1.5). -/
def parseMantissa (cs : List Char) : Option ℚ :=
  let r := splitAtChar '.' cs
  match r.2 with
  | none =>
    if cs ≠ [] ∧ allDigits cs then some (digitsToNat cs : ℚ) else none
  | some frac =>
    if allDigits r.1 ∧ allDigits frac ∧ (r.1 ≠ [] ∨ frac ≠ []) then
      some ((digitsToNat r.1 : ℚ) + (digitsToNat frac : ℚ) / 10 ^ frac.length)
    else none

/-- Exponent of a Python float literal: optional sign then nonempty digits. -/
def parseExpPart : List Char → Option ℤ
  | '+' :: cs => if cs ≠ [] ∧ allDigits cs then some (digitsToNat cs : ℤ) else none
  | '-' :: cs => if cs ≠ [] ∧ allDigits cs then some (-(digitsToNat cs : ℤ)) else none
  | cs => if cs ≠ [] ∧ allDigits cs then some (digitsToNat cs : ℤ) else none

/-- Unsigned decimal float literal: mantissa with optional e-exponent. -/
def parseDec (cs : List Char) : Option ℚ :=
  let r := splitAtChar 'e' cs
  match r.2 with
  | none => parseMantissa cs
  | some ex =>
    match parseMantissa r.1, parseExpPart ex with
    | some m, some e => some (m * 10 ^ e)
    | _, _ => none

/-- The unsigned part of Python float() parsing: the keywords inf, infinity
and nan (already lowercased), or a decimal literal. -/
def pyFloatUnsigned (neg : Bool) (cs : List Char) : Option PyFloat :=
  if cs = "inf".data ∨ cs = "infinity".data then
    some (if neg then PyFloat.ninf else PyFloat.inf)
  else if cs = "nan".data then some PyFloat.nan
  else (parseDec cs).map (fun q => PyFloat.finite (if neg then -q else q))

/-- Model of Python float(str): strip surrounding whitespace, fold case,
read an optional sign, then an unsigned float token.  Returns none exactly
when Python float() raises ValueError.  (Digit-group underscores and exotic
Unicode digits, which no log line uses, are not modeled; as stated in the
file header, IEEE-754 rounding, and with it the overflow of huge literals
to infinity, is idealized into exact rationals.) -/
def pyFloat (s : String) : Option PyFloat :=
  match (pyToLower (pyStrip s)).data with
  | '+' :: cs => pyFloatUnsigned false cs
  | '-' :: cs => pyFloatUnsigned true cs
  | cs => pyFloatUnsigned false cs

/-- One parsed row of a navigation log: the dict with keys xte, lat, lon
appended by parse_navigation_log. -/
structure Sample where
  xte : PyFloat
  lat : PyFloat
  lon : PyFloat
deriving DecidableEq, Repr

namespace histogramAnalysis

/-- The loop body of parse_navigation_log in histogramAnalysis.py
(lines 11-21): iterate over the lines carrying the data_start flag; a line
beginning with 2025- switches the flag on; while the flag is on, every
non-blank line with at least 4 tab-separated fields has fields 1, 2, 3
parsed by float(), raising ValueError (modeled as Except.error) when a
field does not parse. -/
def parseLoop : List String → Bool → Except PyError (List Sample)
  | [], _ => .ok []
  | line :: rest, dataStart =>
    let dataStart' := pyStartsWith line "2025-" || dataStart
    if dataStart' && (pyStrip line != "") then
      let parts := pySplit line '\t'
      if 4 ≤ parts.length then
        match pyFloat (parts.getD 1 ""), pyFloat (parts.getD 2 ""),
              pyFloat (parts.getD 3 "") with
        | some xte, some lat, some lon =>
          (parseLoop rest dataStart').map (fun d => ⟨xte, lat, lon⟩ :: d)
        | _, _, _ => .error .valueError
      else parseLoop rest dataStart'
    else parseLoop rest dataStart'

/-- parse_navigation_log of histogramAnalysis.py (lines 5-22), on the list
of lines of the file. -/
def parse_navigation_log (lines : List String) : Except PyError (List Sample) :=
  parseLoop lines false

end histogramAnalysis

namespace lineCreator

/-- The loop body of parse_navigation_log in lineCreator.py (lines 13-23);
the code is character-for-character the same as in histogramAnalysis.py. -/
def parseLoop : List String → Bool → Except PyError (List Sample)
  | [], _ => .ok []
  | line :: rest, dataStart =>
    let dataStart' := pyStartsWith line "2025-" || dataStart
    if dataStart' && (pyStrip line != "") then
      let parts := pySplit line '\t'
      if 4 ≤ parts.length then
        match pyFloat (parts.getD 1 ""), pyFloat (parts.getD 2 ""),
              pyFloat (parts.getD 3 "") with
        | some xte, some lat, some lon =>
          (parseLoop rest dataStart').map (fun d => ⟨xte, lat, lon⟩ :: d)
        | _, _, _ => .error .valueError
      else parseLoop rest dataStart'
    else parseLoop rest dataStart'

/-- parse_navigation_log of lineCreator.py (lines 7-24), on the list of
lines of the file. -/
def parse_navigation_log (lines : List String) : Except PyError (List Sample) :=
  parseLoop lines false

end lineCreator

/-- One run kept by a main routine: the dict with keys name (the file stem)
and data (the parsed samples). -/
structure Run where
  name : String
  data : List Sample
deriving DecidableEq, Repr

/-- The observable outcome of one tool invocation: the console messages in
print order, the image files written, and the aggregate dataset of kept
runs.  (The numeric statistics report and save-path echo printed by
histogramAnalysis.py are presentation of the kept data and are not listed
among the messages; the structure records the data they are computed
from.) -/
structure ToolRun where
  messages : List String
  outputFiles : List String
  runs : List Run
deriving DecidableEq, Repr

/-- Whether a directory entry name matches the glob NavigationLog_*.txt
used by both main routines. -/
def isLogName (n : String) : Bool :=
  pyStartsWith n "NavigationLog_" && pyEndsWith n ".txt"

/-- Model of pathlib Path.stem for the matched file names, which the glob
guarantees end in .txt: the name with those four characters removed. -/
def stem (n : String) : String := ⟨n.data.take (n.data.length - 4)⟩

namespace histogramAnalysis

/-- The per-file loop of main in histogramAnalysis.py (lines 103-117): for
each discovered file print Loading, parse it, drop the run with a
diagnostic when fewer than 2 samples were parsed, keep it otherwise.  A
file is a pair of its name and its list of lines.  (A parse error loses
the messages printed before it, which the model does not track across an
uncaught exception.) -/
def processLogFiles :
    List (String × List String) → Except PyError (List String × List Run)
  | [] => .ok ([], [])
  | (name, content) :: rest =>
    match parse_navigation_log content with
    | .error e => .error e
    | .ok data =>
      match processLogFiles rest with
      | .error e => .error e
      | .ok (msgs, runs) =>
        if data.length < 2 then
          .ok (("Loading: " ++ name) :: ("  Insufficient data in " ++ name) :: msgs,
               runs)
        else
          .ok (("Loading: " ++ name) :: msgs, ⟨stem name, data⟩ :: runs)

/-- main of histogramAnalysis.py (lines 83-140) on the working directory,
given as the list of (file name, file lines) entries: glob for
NavigationLog_*.txt sorted by name, return early when nothing matches,
process every file, and render the histogram exactly when at least one run
survives the minimum-sample filter. -/
def main (files : List (String × List String)) : Except PyError ToolRun :=
  let logFiles :=
    List.insertionSort (fun a b => a.1 ≤ b.1) (files.filter (fun f => isLogName f.1))
  if logFiles.isEmpty then
    .ok ⟨["No navigation log files found!"], [], []⟩
  else
    match processLogFiles logFiles with
    | .error e => .error e
    | .ok (msgs, runs) =>
      let found := "Found " ++ toString logFiles.length ++ " navigation log files"
      if runs.isEmpty then
        .ok ⟨found :: msgs ++ ["No valid data found for histogram generation."], [], []⟩
      else
        .ok ⟨found :: msgs ++ ["Generating combined histogram..."],
             ["histogram_analysis/Combined_XTE_Histogram.png"], runs⟩

end histogramAnalysis

namespace lineCreator

/-- The per-file loop of main in lineCreator.py (lines 145-159); the code
and its printed diagnostics are the same as in histogramAnalysis.py. -/
def processLogFiles :
    List (String × List String) → Except PyError (List String × List Run)
  | [] => .ok ([], [])
  | (name, content) :: rest =>
    match parse_navigation_log content with
    | .error e => .error e
    | .ok data =>
      match processLogFiles rest with
      | .error e => .error e
      | .ok (msgs, runs) =>
        if data.length < 2 then
          .ok (("Loading: " ++ name) :: ("  Insufficient data in " ++ name) :: msgs,
               runs)
        else
          .ok (("Loading: " ++ name) :: msgs, ⟨stem name, data⟩ :: runs)

/-- main of lineCreator.py (lines 125-184): the same discovery and
filtering as histogramAnalysis.main, rendering the combined path plot
(stale output deletion and the size echo are file-system presentation not
tracked here). -/
def main (files : List (String × List String)) : Except PyError ToolRun :=
  let logFiles :=
    List.insertionSort (fun a b => a.1 ≤ b.1) (files.filter (fun f => isLogName f.1))
  if logFiles.isEmpty then
    .ok ⟨["No navigation log files found!"], [], []⟩
  else
    match processLogFiles logFiles with
    | .error e => .error e
    | .ok (msgs, runs) =>
      let found := "Found " ++ toString logFiles.length ++ " navigation log files"
      if runs.isEmpty then
        .ok ⟨found :: msgs ++ ["No valid data found for plotting."], [], []⟩
      else
        .ok ⟨found :: msgs ++ ["Generating combined plot..."],
             ["line_plots/Combined_All_Runs.png"], runs⟩

end lineCreator

/-
The statistics computed by histogramAnalysis.py over the flattened list of
crossTrackError values (lines 130-135: len, numpy mean, mean of absolute
values, numpy std, max of absolute values, numpy percentile 95), in exact
rational arithmetic.
-/

/-- numpy mean: the sum divided by the count. -/
def mean (xs : List ℚ) : ℚ := xs.sum / xs.length

/-- Mean of absolute values, np.mean(np.abs(xs)). -/
def meanAbsolute (xs : List ℚ) : ℚ := mean (xs.map (fun x => |x|))

/-- Population variance: the mean squared deviation from the mean, with
divisor equal to the full count.  numpy std is its square root (numpy
default ddof = 0). -/
def popVariance (xs : List ℚ) : ℚ := mean (xs.map (fun x => (x - mean xs) ^ 2))

/-- s is the value of numpy std on xs: the nonnegative square root of the
population variance.  Stated as a predicate because the square root of a
rational need not be rational. -/
def isStdDev (xs : List ℚ) (s : ℚ) : Prop := 0 ≤ s ∧ s * s = popVariance xs

/-- np.max(np.abs(xs)) for the nonempty lists main feeds it: the largest
absolute value (folding from 0, the least possible absolute value). -/
def maxAbsolute (xs : List ℚ) : ℚ := (xs.map (fun x => |x|)).foldr max 0

/-- numpy percentile with its default linear-interpolation method: sort,
take the fractional rank h = (n-1)q/100, and interpolate between the
order statistics bracketing h. -/
def percentileLinear (q : ℚ) (xs : List ℚ) : ℚ :=
  let s := List.insertionSort (· ≤ ·) xs
  let h := ((s.length : ℚ) - 1) * q / 100
  let i := ⌊h⌋.toNat
  let lo := s.getD i 0
  let hi := s.getD (i + 1) lo
  lo + (h - ⌊h⌋) * (hi - lo)

/-- The reported 95th percentile of absolute errors,
np.percentile(np.abs(xs), 95). -/
def percentile95Absolute (xs : List ℚ) : ℚ :=
  percentileLinear 95 (xs.map (fun x => |x|))

/-
Descriptions of the parsing loop used to state the claims: the data
section of a file and the shape of one row.
-/

/-- The lines of the file from the first line beginning with 2025- onward;
before it the data_start flag of parse_navigation_log is off. -/
def dataSectionLines (lines : List String) : List String :=
  lines.dropWhile (fun l => !(pyStartsWith l "2025-"))

/-- The tab-separated fields of a line. -/
def lineFields (l : String) : List String := pySplit l '\t'

/-- A line the parsing loop treats as a data row once the data section has
begun: non-blank with at least 4 tab-separated fields. -/
def isDataRow (l : String) : Bool :=
  (pyStrip l != "") && decide (4 ≤ (lineFields l).length)

/-- Fields 1, 2 and 3 of the line all parse as Python floats. -/
def rowParses (l : String) : Bool :=
  (pyFloat ((lineFields l).getD 1 "")).isSome &&
  (pyFloat ((lineFields l).getD 2 "")).isSome &&
  (pyFloat ((lineFields l).getD 3 "")).isSome

/-- The sample a data row yields, when its numeric fields parse. -/
def rowSample (l : String) : Option Sample :=
  if isDataRow l then
    match pyFloat ((lineFields l).getD 1 ""), pyFloat ((lineFields l).getD 2 ""),
          pyFloat ((lineFields l).getD 3 "") with
    | some xte, some lat, some lon => some ⟨xte, lat, lon⟩
    | _, _, _ => none
  else none

/-- The runs the main loops keep, described file by file: a file whose
parse succeeds contributes its run exactly when it parsed at least 2
samples. -/
def keptRuns (files : List (String × List String)) : List Run :=
  files.filterMap (fun f =>
    match histogramAnalysis.parse_navigation_log f.2 with
    | .ok d => if d.length < 2 then none else some ⟨stem f.1, d⟩
    | .error _ => none)

/-- The diagnostics the main loops print, described file by file. -/
def loadMessages (files : List (String × List String)) : List String :=
  files.flatMap (fun f =>
    ("Loading: " ++ f.1) ::
      match histogramAnalysis.parse_navigation_log f.2 with
      | .ok d => if d.length < 2 then ["  Insufficient data in " ++ f.1] else []
      | .error _ => [])

/-
Helper lemmas about the parsing loop.
-/

theorem parseLoop_agree (l : List String) (b : Bool) :
    histogramAnalysis.parseLoop l b = lineCreator.parseLoop l b := by
  induction l generalizing b with
  | nil => rfl
  | cons line rest ih =>
    simp only [histogramAnalysis.parseLoop, lineCreator.parseLoop, ih]

theorem processLogFiles_agree (files : List (String × List String)) :
    lineCreator.processLogFiles files = histogramAnalysis.processLogFiles files := by
  induction files with
  | nil => rfl
  | cons f rest ih =>
    obtain ⟨name, content⟩ := f
    simp only [lineCreator.processLogFiles, histogramAnalysis.processLogFiles,
      lineCreator.parse_navigation_log, histogramAnalysis.parse_navigation_log,
      ← parseLoop_agree, ih]

theorem parseLoop_append_no_marker (pre suf : List String)
    (h : ∀ l ∈ pre, pyStartsWith l "2025-" = false) :
    histogramAnalysis.parseLoop (pre ++ suf) false =
      histogramAnalysis.parseLoop suf false := by
  induction pre with
  | nil => rfl
  | cons line rest ih =>
    have hl : pyStartsWith line "2025-" = false := h line (List.mem_cons_self _ _)
    simp only [List.cons_append, histogramAnalysis.parseLoop, hl, Bool.or_self,
      Bool.false_and, Bool.false_eq_true, if_false]
    exact ih (fun l hm => h l (List.mem_cons_of_mem _ hm))

theorem parseLoop_false_eq_true_of_marker (line : String) (rest : List String)
    (h : pyStartsWith line "2025-" = true) :
    histogramAnalysis.parseLoop (line :: rest) false =
      histogramAnalysis.parseLoop (line :: rest) true := by
  simp only [histogramAnalysis.parseLoop, h, Bool.true_or]

theorem parseLoop_true_of_rows_parse (ls : List String)
    (h : ∀ l ∈ ls, isDataRow l = true → rowParses l = true) :
    histogramAnalysis.parseLoop ls true = .ok (ls.filterMap rowSample) := by
  induction ls with
  | nil => rfl
  | cons line rest ih =>
    have ihr := ih (fun l hm hd => h l (List.mem_cons_of_mem _ hm) hd)
    by_cases hb : (pyStrip line != "") = true
    · by_cases h4 : 4 ≤ (pySplit line '\t').length
      · have hrow : isDataRow line = true := by
          simp [isDataRow, lineFields, hb, h4]
        have hp := h line (List.mem_cons_self _ _) hrow
        simp only [rowParses, Bool.and_eq_true, lineFields] at hp
        obtain ⟨⟨h1, h2⟩, h3⟩ := hp
        obtain ⟨x1, hx1⟩ := Option.isSome_iff_exists.mp h1
        obtain ⟨x2, hx2⟩ := Option.isSome_iff_exists.mp h2
        obtain ⟨x3, hx3⟩ := Option.isSome_iff_exists.mp h3
        simp only [histogramAnalysis.parseLoop, Bool.or_true, Bool.true_and, hb,
          if_true, h4, if_pos, hx1, hx2, hx3, ihr, Except.map,
          List.filterMap_cons, rowSample, hrow, lineFields]
      · have hrow : isDataRow line = false := by
          simp [isDataRow, lineFields, h4]
        simp only [histogramAnalysis.parseLoop, Bool.or_true, Bool.true_and, hb,
          if_true, h4, if_neg, ihr, List.filterMap_cons, rowSample, hrow,
          Bool.false_eq_true, if_false]
    · have hrow : isDataRow line = false := by
        simp only [Bool.not_eq_true] at hb
        simp [isDataRow, hb]
      simp only [histogramAnalysis.parseLoop, Bool.or_true, Bool.true_and, hb,
        Bool.false_eq_true, if_false, ihr, List.filterMap_cons, rowSample, hrow]

theorem parseLoop_true_error_of_bad_row (ls : List String)
    (h : ∃ l ∈ ls, isDataRow l = true ∧ rowParses l = false) :
    histogramAnalysis.parseLoop ls true = .error .valueError := by
  induction ls with
  | nil => simp at h
  | cons line rest ih =>
    by_cases hb : (pyStrip line != "") = true
    · by_cases h4 : 4 ≤ (pySplit line '\t').length
      · by_cases hp : rowParses line = true
        · have hbad : ∃ l ∈ rest, isDataRow l = true ∧ rowParses l = false := by
            rcases h with ⟨l, hm, hd, hr⟩
            rcases List.mem_cons.mp hm with rfl | hm
            · exact absurd hp (by simp [hr])
            · exact ⟨l, hm, hd, hr⟩
          simp only [rowParses, Bool.and_eq_true, lineFields] at hp
          obtain ⟨⟨h1, h2⟩, h3⟩ := hp
          obtain ⟨x1, hx1⟩ := Option.isSome_iff_exists.mp h1
          obtain ⟨x2, hx2⟩ := Option.isSome_iff_exists.mp h2
          obtain ⟨x3, hx3⟩ := Option.isSome_iff_exists.mp h3
          simp only [histogramAnalysis.parseLoop, Bool.or_true, Bool.true_and, hb,
            if_true, h4, if_pos, hx1, hx2, hx3, ih hbad, Except.map]
        · have hpf : rowParses line = false := by
            simpa using hp
          simp only [rowParses, Bool.and_eq_true, lineFields] at hpf
          simp only [histogramAnalysis.parseLoop, Bool.or_true, Bool.true_and, hb,
            if_true, h4, if_pos]
          rcases hf1 : pyFloat ((pySplit line '\t').getD 1 "") with _ | x1
          · rfl
          rcases hf2 : pyFloat ((pySplit line '\t').getD 2 "") with _ | x2
          · rfl
          rcases hf3 : pyFloat ((pySplit line '\t').getD 3 "") with _ | x3
          · rfl
          refine absurd ?_ hp
          simp only [rowParses, lineFields, hf1, hf2, hf3, Option.isSome_some,
            Bool.and_self]
      · have hbad : ∃ l ∈ rest, isDataRow l = true ∧ rowParses l = false := by
          rcases h with ⟨l, hm, hd, hr⟩
          rcases List.mem_cons.mp hm with rfl | hm
          · exact absurd hd (by simp [isDataRow, lineFields, h4])
          · exact ⟨l, hm, hd, hr⟩
        simp only [histogramAnalysis.parseLoop, Bool.or_true, Bool.true_and, hb,
          if_true, h4, if_neg, Bool.false_eq_true, if_false]
        exact ih hbad
    · have hbad : ∃ l ∈ rest, isDataRow l = true ∧ rowParses l = false := by
        rcases h with ⟨l, hm, hd, hr⟩
        rcases List.mem_cons.mp hm with rfl | hm
        · refine absurd hd ?_
          simp only [Bool.not_eq_true] at hb
          simp [isDataRow, hb]
        · exact ⟨l, hm, hd, hr⟩
      simp only [histogramAnalysis.parseLoop, Bool.or_true, Bool.true_and, hb,
        Bool.false_eq_true, if_false]
      exact ih hbad

theorem parse_eq_parseLoop_dataSection (lines : List String) :
    histogramAnalysis.parse_navigation_log lines =
      histogramAnalysis.parseLoop (dataSectionLines lines) true := by
  cases hds : dataSectionLines lines with
  | nil =>
    have hall : ∀ l ∈ lines, pyStartsWith l "2025-" = false := by
      intro l hl
      have := List.dropWhile_eq_nil_iff.mp hds l hl
      simpa using this
    have := parseLoop_append_no_marker lines [] hall
    rw [List.append_nil] at this
    exact this
  | cons l0 rest =>
    have hl0 : pyStartsWith l0 "2025-" = true := by
      have hne : lines.dropWhile (fun l => !(pyStartsWith l "2025-")) ≠ [] := by
        intro hnil
        rw [dataSectionLines, hnil] at hds
        exact List.noConfusion hds
      have hhead := List.head_dropWhile_not
        (fun l => !(pyStartsWith l "2025-")) lines hne
      have heq : (lines.dropWhile (fun l => !(pyStartsWith l "2025-"))).head hne = l0 := by
        have : dataSectionLines lines = l0 :: rest := hds
        rw [dataSectionLines] at this
        simp [this]
      rw [heq] at hhead
      simpa using hhead
    have hmem : ∀ l ∈ lines.takeWhile (fun l => !(pyStartsWith l "2025-")),
        pyStartsWith l "2025-" = false := by
      intro l hl
      have := List.mem_takeWhile_imp hl
      simpa using this
    calc histogramAnalysis.parse_navigation_log lines
        = histogramAnalysis.parseLoop
            (lines.takeWhile (fun l => !(pyStartsWith l "2025-")) ++
              lines.dropWhile (fun l => !(pyStartsWith l "2025-"))) false := by
          rw [List.takeWhile_append_dropWhile]
          rfl
      _ = histogramAnalysis.parseLoop (dataSectionLines lines) false :=
          parseLoop_append_no_marker _ _ hmem
      _ = histogramAnalysis.parseLoop (l0 :: rest) false :=
          congrArg (fun t => histogramAnalysis.parseLoop t false) hds
      _ = histogramAnalysis.parseLoop (l0 :: rest) true :=
          parseLoop_false_eq_true_of_marker l0 rest hl0

theorem length_filterMap_rowSample (ls : List String)
    (h : ∀ l ∈ ls, isDataRow l = true → rowParses l = true) :
    (ls.filterMap rowSample).length = ls.countP isDataRow := by
  induction ls with
  | nil => rfl
  | cons line rest ih =>
    have ihr := ih (fun l hm => h l (List.mem_cons_of_mem _ hm))
    cases hd : isDataRow line with
    | false =>
      simp only [List.filterMap_cons, rowSample, hd, Bool.false_eq_true, if_false,
        List.countP_cons, ihr]
      simp [hd]
    | true =>
      have hp := h line (List.mem_cons_self _ _) hd
      simp only [rowParses, Bool.and_eq_true] at hp
      obtain ⟨⟨h1, h2⟩, h3⟩ := hp
      obtain ⟨x1, hx1⟩ := Option.isSome_iff_exists.mp h1
      obtain ⟨x2, hx2⟩ := Option.isSome_iff_exists.mp h2
      obtain ⟨x3, hx3⟩ := Option.isSome_iff_exists.mp h3
      simp only [List.filterMap_cons, rowSample, hd, if_true, hx1, hx2, hx3,
        List.length_cons, List.countP_cons, hd, ihr]

/-
Helper lemmas about the statistics.
-/

theorem mean_perm {l1 l2 : List ℚ} (h : l1.Perm l2) : mean l1 = mean l2 := by
  unfold mean
  rw [h.sum_eq, h.length_eq]

theorem foldr_max_perm {l1 l2 : List ℚ} (h : l1.Perm l2) :
    l1.foldr max 0 = l2.foldr max 0 := by
  haveI : LeftCommutative (max : ℚ → ℚ → ℚ) := max_left_commutative
  exact h.foldr_eq 0

theorem insertionSort_eq_of_perm {l1 l2 : List ℚ} (h : l1.Perm l2) :
    List.insertionSort (· ≤ ·) l1 = List.insertionSort (· ≤ ·) l2 := by
  refine List.eq_of_perm_of_sorted ?_ (List.sorted_insertionSort _ l1)
    (List.sorted_insertionSort _ l2)
  exact ((List.perm_insertionSort _ l1).trans h).trans
    (List.perm_insertionSort _ l2).symm

theorem processLogFiles_char (files : List (String × List String)) :
    (∀ f ∈ files, histogramAnalysis.parse_navigation_log f.2 ≠ .error .valueError) →
    histogramAnalysis.processLogFiles files = .ok (loadMessages files, keptRuns files) := by
  induction files with
  | nil => intro _; rfl
  | cons f rest ih =>
    intro h
    obtain ⟨name, content⟩ := f
    have hf := h (name, content) (List.mem_cons_self _ _)
    have ihr := ih (fun g hg => h g (List.mem_cons_of_mem _ hg))
    cases hp : histogramAnalysis.parse_navigation_log content with
    | error e => cases e; exact absurd hp hf
    | ok d =>
      by_cases hlen : d.length < 2
      · simp [histogramAnalysis.processLogFiles, hp, ihr, hlen, loadMessages,
          keptRuns, List.flatMap_cons, List.filterMap_cons]
      · simp [histogramAnalysis.processLogFiles, hp, ihr, hlen, loadMessages,
          keptRuns, List.flatMap_cons, List.filterMap_cons]

/-
The claims.
-/

/-- C1, counterexample.  The spec asserts that every parsed sample has a
finite error value and that a line whose error field parses to a
non-finite value is skipped.  The code applies no finiteness check: a data
line whose error field is the token inf yields a sample recording positive
infinity, in both scripts. -/
theorem nonfinite_error_line_not_skipped :
    histogramAnalysis.parse_navigation_log ["2025-01-01 00:00:00\tinf\t40.0\t-75.0"] =
        .ok [⟨PyFloat.inf, PyFloat.finite 40, PyFloat.finite (-75)⟩] ∧
      lineCreator.parse_navigation_log ["2025-01-01 00:00:00\tinf\t40.0\t-75.0"] =
        .ok [⟨PyFloat.inf, PyFloat.finite 40, PyFloat.finite (-75)⟩] ∧
      PyFloat.isFinite PyFloat.inf = false :=
  ⟨by decide, by decide, rfl⟩

/-- C1, amended.  A data row of the data section whose fields 1, 2, 3 all
parse contributes exactly one sample recording the parsed values, whatever
they are: the error value is not inspected for finiteness, so non-finite
parses (inf, -inf, nan) are kept, not skipped. -/
theorem sample_records_parsed_error_value (line t s1 s2 s3 : String)
    (x1 x2 x3 : PyFloat)
    (hstart : pyStartsWith line "2025-" = true)
    (hblank : (pyStrip line != "") = true)
    (hsplit : lineFields line = [t, s1, s2, s3])
    (h1 : pyFloat s1 = some x1) (h2 : pyFloat s2 = some x2)
    (h3 : pyFloat s3 = some x3) :
    histogramAnalysis.parse_navigation_log [line] = .ok [⟨x1, x2, x3⟩] ∧
      lineCreator.parse_navigation_log [line] = .ok [⟨x1, x2, x3⟩] := by
  have hsp : pySplit line '\t' = [t, s1, s2, s3] := hsplit
  have key : histogramAnalysis.parse_navigation_log [line] = .ok [⟨x1, x2, x3⟩] := by
    simp only [histogramAnalysis.parse_navigation_log, histogramAnalysis.parseLoop,
      hstart, Bool.true_or, Bool.true_and, hblank, if_true, hsp]
    norm_num [List.getD, h1, h2, h3, Except.map]
  exact ⟨key, (parseLoop_agree [line] false).symm.trans key⟩

/-- C1, witness for the amended theorem: a line whose error field is the
token nan is parsed into a sample recording the nan value. -/
theorem sample_records_parsed_error_value_witness :
    (pyStartsWith "2025-02-02 00:00:00\tnan\t1.0\t2.0" "2025-" = true) ∧
      ((pyStrip "2025-02-02 00:00:00\tnan\t1.0\t2.0" != "") = true) ∧
      (lineFields "2025-02-02 00:00:00\tnan\t1.0\t2.0" =
        ["2025-02-02 00:00:00", "nan", "1.0", "2.0"]) ∧
      (pyFloat "nan" = some PyFloat.nan) ∧
      histogramAnalysis.parse_navigation_log ["2025-02-02 00:00:00\tnan\t1.0\t2.0"] =
        .ok [⟨PyFloat.nan, PyFloat.finite 1, PyFloat.finite 2⟩] :=
  ⟨by decide, by decide, by decide, by decide,
    (sample_records_parsed_error_value "2025-02-02 00:00:00\tnan\t1.0\t2.0"
      "2025-02-02 00:00:00" "nan" "1.0" "2.0" PyFloat.nan (PyFloat.finite 1)
      (PyFloat.finite 2) (by decide) (by decide) (by decide) (by decide)
      (by decide) (by decide)).1⟩

/-- C2 (confirmed).  A file whose data section contains a non-blank line
with at least 4 tab-separated fields in which field 1, 2 or 3 does not
parse as a float makes parse_navigation_log raise ValueError: the result
is an error carrying no samples, neither for that line nor for any other
line of the file. -/
theorem malformed_field_aborts_file (lines : List String)
    (h : ∃ l ∈ dataSectionLines lines, isDataRow l = true ∧ rowParses l = false) :
    histogramAnalysis.parse_navigation_log lines = .error .valueError := by
  rw [parse_eq_parseLoop_dataSection]
  exact parseLoop_true_error_of_bad_row _ h

/-- C2, witness: a file whose only data line has the unparsable error
field oops aborts with ValueError. -/
theorem malformed_field_aborts_file_witness :
    (∃ l ∈ dataSectionLines ["comment", "2025-03-03\toops\t1.0\t2.0"],
        isDataRow l = true ∧ rowParses l = false) ∧
      histogramAnalysis.parse_navigation_log ["comment", "2025-03-03\toops\t1.0\t2.0"] =
        .error .valueError :=
  ⟨by decide, malformed_field_aborts_file _ (by decide)⟩

/-- C3 (confirmed).  For a well-formed file, in which every non-blank data
section line with at least 4 tab-separated fields has fields 1, 2, 3
parseable, the parse succeeds and its length is the number of non-blank
data-section lines with at least 4 fields; shorter or blank lines are
skipped silently.  The data section is the suffix starting at the first
line beginning with 2025-. -/
theorem wellformed_parse_length (lines : List String)
    (h : ∀ l ∈ dataSectionLines lines, isDataRow l = true → rowParses l = true) :
    histogramAnalysis.parse_navigation_log lines =
        .ok ((dataSectionLines lines).filterMap rowSample) ∧
      ((dataSectionLines lines).filterMap rowSample).length =
        (dataSectionLines lines).countP isDataRow := by
  constructor
  · rw [parse_eq_parseLoop_dataSection]
    exact parseLoop_true_of_rows_parse _ h
  · exact length_filterMap_rowSample _ h

/-- C3, witness: a file with two header lines, two well-formed data rows,
one short row and one blank row parses to exactly 2 samples. -/
theorem wellformed_parse_length_witness :
    (∀ l ∈ dataSectionLines
        ["header", "meta\tstuff", "2025-04-04\t0.25\t40.0\t-75.0", "short\trow",
          "", "2025-04-05\t-0.5\t41.0\t-76.0\textra"],
        isDataRow l = true → rowParses l = true) ∧
      histogramAnalysis.parse_navigation_log
          ["header", "meta\tstuff", "2025-04-04\t0.25\t40.0\t-75.0", "short\trow",
            "", "2025-04-05\t-0.5\t41.0\t-76.0\textra"] =
        .ok [⟨PyFloat.finite (1/4), PyFloat.finite 40, PyFloat.finite (-75)⟩,
          ⟨PyFloat.finite (-1/2), PyFloat.finite 41, PyFloat.finite (-76)⟩] ∧
      (2 : ℕ) = (dataSectionLines
        ["header", "meta\tstuff", "2025-04-04\t0.25\t40.0\t-75.0", "short\trow",
          "", "2025-04-05\t-0.5\t41.0\t-76.0\textra"]).countP isDataRow :=
  ⟨by decide,
    ((wellformed_parse_length _ (by decide)).1).trans (by decide),
    by decide⟩

/-- C4, counterexample.  The spec says the first line beginning with 2025-
only marks the start of the data section and is itself not parsed as a
data row.  In the code the flag is set and the same iteration then parses
that very line: a one-line file consisting of the marker line yields one
sample, not zero. -/
theorem marker_line_is_parsed :
    histogramAnalysis.parse_navigation_log ["2025-05-05 00:00:00\t0.5\t40.0\t-75.0"] =
        .ok [⟨PyFloat.finite (1/2), PyFloat.finite 40, PyFloat.finite (-75)⟩] ∧
      histogramAnalysis.parse_navigation_log ["2025-05-05 00:00:00\t0.5\t40.0\t-75.0"] ≠
        .ok [] :=
  ⟨by decide, by decide⟩

/-- C4, amended.  parse_navigation_log discards every line before the
first line beginning with 2025- and parses the data section from that
marker line onward, the marker line included: the whole file parses
exactly as the data-section suffix does with the data_start flag on. -/
theorem parse_starts_at_first_marker_inclusive (lines : List String) :
    histogramAnalysis.parse_navigation_log lines =
        histogramAnalysis.parseLoop (dataSectionLines lines) true ∧
      lineCreator.parse_navigation_log lines =
        lineCreator.parseLoop (dataSectionLines lines) true := by
  refine ⟨parse_eq_parseLoop_dataSection lines, ?_⟩
  calc lineCreator.parse_navigation_log lines
      = histogramAnalysis.parse_navigation_log lines :=
        (parseLoop_agree lines false).symm
    _ = histogramAnalysis.parseLoop (dataSectionLines lines) true :=
        parse_eq_parseLoop_dataSection lines
    _ = lineCreator.parseLoop (dataSectionLines lines) true :=
        parseLoop_agree _ _

/-- C5 (confirmed).  When every discovered file parses without error, the
per-file loop of both tools keeps exactly the runs with at least 2 parsed
samples: a run with fewer samples is dropped with the Insufficient data
diagnostic while the loop continues with the remaining files. -/
theorem runs_kept_iff_at_least_two_samples (files : List (String × List String))
    (h : ∀ f ∈ files, histogramAnalysis.parse_navigation_log f.2 ≠ .error .valueError) :
    histogramAnalysis.processLogFiles files = .ok (loadMessages files, keptRuns files) ∧
      lineCreator.processLogFiles files = .ok (loadMessages files, keptRuns files) := by
  have key := processLogFiles_char files h
  exact ⟨key, (processLogFiles_agree files).trans key⟩

/-- C5, witness: of two files, one parsing to 1 sample and one to 2
samples, exactly the second is kept, and the first leaves its diagnostic
while the loop continues. -/
theorem runs_kept_iff_at_least_two_samples_witness :
    (∀ f ∈ ([("NavigationLog_a.txt", ["2025-06-06\t1\t2\t3"]),
        ("NavigationLog_b.txt", ["2025-06-06\t1\t2\t3", "2025-06-07\t4\t5\t6"])] :
          List (String × List String)),
        histogramAnalysis.parse_navigation_log f.2 ≠ .error .valueError) ∧
      histogramAnalysis.processLogFiles
          [("NavigationLog_a.txt", ["2025-06-06\t1\t2\t3"]),
            ("NavigationLog_b.txt", ["2025-06-06\t1\t2\t3", "2025-06-07\t4\t5\t6"])] =
        .ok (["Loading: NavigationLog_a.txt",
              "  Insufficient data in NavigationLog_a.txt",
              "Loading: NavigationLog_b.txt"],
          [⟨"NavigationLog_b",
            [⟨PyFloat.finite 1, PyFloat.finite 2, PyFloat.finite 3⟩,
              ⟨PyFloat.finite 4, PyFloat.finite 5, PyFloat.finite 6⟩]⟩]) :=
  ⟨by decide,
    ((runs_kept_iff_at_least_two_samples _ (by decide)).1).trans (by decide)⟩

/-- C6 (confirmed).  The reported standard deviation is numpy std, the
population standard deviation with divisor equal to the full count: on the
two-element value list [-1, 1] (meters) it is exactly 1, the nonnegative
root of the population variance 1 (the sample formula would give root 2). -/
theorem stdDev_population_on_unit_pair : isStdDev [(-1 : ℚ), 1] 1 :=
  ⟨by norm_num, by decide⟩

/-- C7 (confirmed).  The reported 95th percentile of absolute errors is
numpy percentile with the default linear-interpolation method: on the 100
absolute values 0, 1, ..., 99 it is exactly 94.05. -/
theorem percentile95_linear_interpolation_range :
    percentile95Absolute ((List.range 100).map (fun n => (n : ℚ))) = 94.05 := by
  decide

/-- C8 (confirmed).  Every aggregate statistic reported by the histogram
tool (count, mean, mean of absolute values, population standard deviation,
maximum absolute value, 95th percentile of absolute values) is unchanged
when the list of crossTrackError values is permuted. -/
theorem statistics_permutation_invariant (xs ys : List ℚ) (h : xs.Perm ys) :
    xs.length = ys.length ∧ mean xs = mean ys ∧
      meanAbsolute xs = meanAbsolute ys ∧
      (∀ s, isStdDev xs s ↔ isStdDev ys s) ∧
      maxAbsolute xs = maxAbsolute ys ∧
      percentile95Absolute xs = percentile95Absolute ys := by
  have habs : (xs.map fun x => |x|).Perm (ys.map fun x => |x|) := h.map _
  have hmean : mean xs = mean ys := mean_perm h
  have hvar : popVariance xs = popVariance ys := by
    unfold popVariance
    rw [hmean]
    exact mean_perm (h.map _)
  refine ⟨h.length_eq, hmean, mean_perm habs, fun s => ?_, ?_, ?_⟩
  · unfold isStdDev
    rw [hvar]
  · unfold maxAbsolute
    exact foldr_max_perm habs
  · unfold percentile95Absolute percentileLinear
    rw [insertionSort_eq_of_perm habs]

/-- C8, witness: the statistics agree on the two-element list 1, -2 and
its transposition. -/
theorem statistics_permutation_invariant_witness :
    ([(1 : ℚ), -2].Perm [-2, 1]) ∧
      maxAbsolute [(1 : ℚ), -2] = maxAbsolute [-2, 1] ∧
      percentile95Absolute [(1 : ℚ), -2] = percentile95Absolute [-2, 1] :=
  ⟨List.Perm.swap (-2) 1 [],
    (statistics_permutation_invariant [(1 : ℚ), -2] [-2, 1]
      (List.Perm.swap (-2) 1 [])).2.2.2.2.1,
    (statistics_permutation_invariant [(1 : ℚ), -2] [-2, 1]
      (List.Perm.swap (-2) 1 [])).2.2.2.2.2⟩

/-- C9 (confirmed).  On a working directory with no entry matching
NavigationLog_*.txt, both main routines print the no-files message, write
no output image, and return normally. -/
theorem no_matching_files_clean_exit (files : List (String × List String))
    (h : ∀ f ∈ files, isLogName f.1 = false) :
    histogramAnalysis.main files = .ok ⟨["No navigation log files found!"], [], []⟩ ∧
      lineCreator.main files = .ok ⟨["No navigation log files found!"], [], []⟩ := by
  have hfil : files.filter (fun f => isLogName f.1) = [] :=
    List.filter_eq_nil_iff.mpr (fun a ha => by simp [h a ha])
  constructor <;>
    simp [histogramAnalysis.main, lineCreator.main, hfil, List.insertionSort]

/-- C9, witness: a directory holding one unrelated file. -/
theorem no_matching_files_clean_exit_witness :
    (∀ f ∈ ([("README.md", [])] : List (String × List String)),
        isLogName f.1 = false) ∧
      histogramAnalysis.main [("README.md", [])] =
        .ok ⟨["No navigation log files found!"], [], []⟩ ∧
      lineCreator.main [("README.md", [])] =
        .ok ⟨["No navigation log files found!"], [], []⟩ :=
  ⟨by decide,
    (no_matching_files_clean_exit _ (by decide)).1,
    (no_matching_files_clean_exit _ (by decide)).2⟩

/-- C10 (confirmed).  The parse_navigation_log functions of
histogramAnalysis.py and lineCreator.py are extensionally equal: on every
file they return the same samples in the same order, and one raises
exactly when the other does. -/
theorem parse_functions_extensionally_equal (lines : List String) :
    histogramAnalysis.parse_navigation_log lines =
      lineCreator.parse_navigation_log lines :=
  parseLoop_agree lines false
